import Mathlib

set_option linter.unusedVariables false
set_option maxRecDepth 10000

-- Shallow embedding of the `unseen` Vulkan frame-capture layer (src/lib.rs).
-- Opaque Vulkan handles are modelled as natural numbers (0 = null handle),
-- machine integers as Nat with explicit reduction modulo 2^32 where u32
-- arithmetic in the source can wrap, HashMaps as association lists (insertion
-- shadows, first match wins), and calls into the next layer / driver as an
-- explicit oracle together with a trace of the driver calls that were issued.

/-- Opaque 64-bit Vulkan handle; 0 models the null handle. -/
abbrev Handle := Nat

/-- Vulkan result codes that appear in src/lib.rs. -/
inductive VkResult where
  | SUCCESS
  | INCOMPLETE
  | ERROR_INITIALIZATION_FAILED
  | ERROR_LAYER_NOT_PRESENT
  | ERROR_SURFACE_LOST_KHR
  | ERROR_OUT_OF_HOST_MEMORY
  | ERROR_OUT_OF_DEVICE_MEMORY
  | ERROR_DEVICE_LOST
  deriving DecidableEq, Repr

/-- vk::Extent2D. -/
structure Extent2D where
  width : Nat
  height : Nat
  deriving DecidableEq, Repr

/-- OutputFormat (src/lib.rs lines 29-33). -/
inductive OutputFormat where
  | Ppm
  | Png
  deriving DecidableEq, Repr

/-- LayerConfig (src/lib.rs lines 21-27); immutable after construction. -/
structure LayerConfig where
  output_dir : String
  output_format : OutputFormat
  capture_frequency : Nat
  max_frames : Nat
  deriving DecidableEq, Repr

-- Raw vk::Format values matched by the source (ash constants).

/-- VK_FORMAT_R8G8B8_UNORM. -/
def FORMAT_R8G8B8_UNORM : Nat := 23

/-- VK_FORMAT_R8G8B8_SRGB. -/
def FORMAT_R8G8B8_SRGB : Nat := 29

/-- VK_FORMAT_R8G8B8A8_UNORM. -/
def FORMAT_R8G8B8A8_UNORM : Nat := 37

/-- VK_FORMAT_R8G8B8A8_SRGB. -/
def FORMAT_R8G8B8A8_SRGB : Nat := 43

/-- VK_FORMAT_B8G8R8A8_UNORM. -/
def FORMAT_B8G8R8A8_UNORM : Nat := 44

/-- VK_FORMAT_B8G8R8A8_SRGB. -/
def FORMAT_B8G8R8A8_SRGB : Nat := 50

/-- u32 arithmetic in the source wraps modulo 2^32; the row and pixel offsets
in convert_host_image_to_rgb are computed as u32 products before the usize cast. -/
def u32Mod (n : Nat) : Nat := n % 4294967296

/-- convert_host_image_to_rgb (src/lib.rs lines 1267-1328): decode a mapped,
row-pitched image into a tightly packed RGB byte list.  `mem o` is the byte at
offset `o` from the image's mapped pointer.  The nested flatMaps mirror the
nested `for y / for x` loops appending three bytes per pixel. -/
def convert_host_image_to_rgb (mem : Nat → Nat) (row_pitch : Nat) (extent : Extent2D)
    (format : Nat) : Option (List Nat) :=
  if format = FORMAT_B8G8R8A8_SRGB ∨ format = FORMAT_B8G8R8A8_UNORM then
    some ((List.range extent.height).flatMap fun y =>
      (List.range extent.width).flatMap fun x =>
        [mem (u32Mod (y * row_pitch) + u32Mod (x * 4) + 2),
         mem (u32Mod (y * row_pitch) + u32Mod (x * 4) + 1),
         mem (u32Mod (y * row_pitch) + u32Mod (x * 4))])
  else if format = FORMAT_R8G8B8A8_SRGB ∨ format = FORMAT_R8G8B8A8_UNORM then
    some ((List.range extent.height).flatMap fun y =>
      (List.range extent.width).flatMap fun x =>
        [mem (u32Mod (y * row_pitch) + u32Mod (x * 4)),
         mem (u32Mod (y * row_pitch) + u32Mod (x * 4) + 1),
         mem (u32Mod (y * row_pitch) + u32Mod (x * 4) + 2)])
  else if format = FORMAT_R8G8B8_SRGB ∨ format = FORMAT_R8G8B8_UNORM then
    some ((List.range extent.height).flatMap fun y =>
      (List.range extent.width).flatMap fun x =>
        [mem (u32Mod (y * row_pitch) + u32Mod (x * 3)),
         mem (u32Mod (y * row_pitch) + u32Mod (x * 3) + 1),
         mem (u32Mod (y * row_pitch) + u32Mod (x * 3) + 2)])
  else none

/-- Formats the decoder supports (the six arms of the source's match). -/
def SupportedFormat (format : Nat) : Prop :=
  format = FORMAT_B8G8R8A8_SRGB ∨ format = FORMAT_B8G8R8A8_UNORM ∨
  format = FORMAT_R8G8B8A8_SRGB ∨ format = FORMAT_R8G8B8A8_UNORM ∨
  format = FORMAT_R8G8B8_SRGB ∨ format = FORMAT_R8G8B8_UNORM

instance (format : Nat) : Decidable (SupportedFormat format) := by
  unfold SupportedFormat; infer_instance

/-- Bytes per source pixel for a supported format. -/
def bpp (format : Nat) : Nat :=
  if format = FORMAT_R8G8B8_SRGB ∨ format = FORMAT_R8G8B8_UNORM then 3 else 4

/-- Channel `k` of the decoded RGB triple of the pixel whose first source byte
sits at offset `off`: BGRA formats reverse the first three bytes, the others
copy them in order. -/
def decodedByte (mem : Nat → Nat) (format off : Nat) (k : Fin 3) : Nat :=
  if format = FORMAT_B8G8R8A8_SRGB ∨ format = FORMAT_B8G8R8A8_UNORM then
    mem (off + (2 - (k : Nat)))
  else
    mem (off + (k : Nat))

/-- ppm header string (src/lib.rs line 1336). -/
def ppm_header (width height : Nat) : String :=
  "P6\n" ++ toString width ++ " " ++ toString height ++ "\n255\n"

/-- ASCII bytes of a string (the header is pure ASCII). -/
def strBytes (s : String) : List Nat := s.data.map Char.toNat

/-- save_ppm_frame (src/lib.rs lines 1330-1342): the written file's content and
the returned byte count. -/
def save_ppm_frame (pixels : List Nat) (width height : Nat) : List Nat × Nat :=
  let file_data := strBytes (ppm_header width height) ++ pixels
  (file_data, file_data.length)

/-- HostVisibleImage (src/lib.rs lines 153-159). -/
structure HostVisibleImage where
  image : Handle
  memory : Handle
  mapped_ptr : Nat
  size : Nat
  row_pitch : Nat
  deriving DecidableEq, Repr

/-- SwapchainInfo (src/lib.rs lines 145-150). -/
structure SwapchainInfo where
  images : List HostVisibleImage
  format : Nat
  extent : Extent2D
  image_count : Nat
  deriving DecidableEq, Repr

/-- One memory type of the physical device (only the two property flags the
source inspects). -/
structure MemType where
  host_visible : Bool
  host_coherent : Bool
  deriving DecidableEq, Repr

/-- Outcomes of the driver calls made while creating the i-th host-visible
image: vkCreateImage, vkGetImageMemoryRequirements (memTypeBits, memSize),
vkAllocateMemory, vkBindImageMemory, vkMapMemory and the subresource-layout
query (rowPitch).  The driver is external; the layer treats each call's result
as opaque data. -/
structure ImageStepOutcome where
  createImage : Except VkResult Handle
  memTypeBits : Nat
  memSize : Nat
  allocate : Except VkResult Handle
  bindImage : Except VkResult Unit
  mapMemory : Except VkResult Nat
  rowPitch : Nat

/-- The next layer / driver as seen by create_host_visible_images: the
physical device's memory types and the per-image call outcomes. -/
structure DriverOracle where
  memProps : List MemType
  step : Nat → ImageStepOutcome

/-- Driver calls the layer can issue (the trace records object handles). -/
inductive DriverCall where
  | createImage (image : Handle)
  | allocateMemory (memory : Handle)
  | bindImageMemory (image memory : Handle)
  | mapMemory (memory : Handle) (ptr : Nat)
  | destroyImage (image : Handle)
  | freeMemory (memory : Handle)
  | unmapMemory (memory : Handle)
  | destroyCommandPool (pool : Handle)
  | nextDestroyInstance
  deriving DecidableEq, Repr

/-- True for the calls that would release a created image, its memory
allocation or its mapping. -/
def is_cleanup_call : DriverCall → Bool
  | DriverCall.destroyImage _ => true
  | DriverCall.freeMemory _ => true
  | DriverCall.unmapMemory _ => true
  | _ => false

/-- Memory-type selection (src/lib.rs lines 1020-1033): the first type index
whose bit is set in memoryTypeBits and whose flags contain both HOST_VISIBLE
and HOST_COHERENT. -/
def findMemType (props : List MemType) (type_bits : Nat) : Option Nat :=
  (List.range props.length).find? fun i =>
    type_bits.testBit i &&
      ((props.getD i ⟨false, false⟩).host_visible && (props.getD i ⟨false, false⟩).host_coherent)

/-- The body of the per-image loop of create_host_visible_images
(src/lib.rs lines 998-1081): create the image, pick a memory type, allocate,
bind at offset 0, map persistently, query the row pitch.  Any error is
returned as-is; the trace records the driver calls that succeeded.  The source
issues no destroy/free/unmap call on any path here. -/
def create_one (props : List MemType) (o : ImageStepOutcome) :
    Except VkResult HostVisibleImage × List DriverCall :=
  match o.createImage with
  | Except.error e => (Except.error e, [])
  | Except.ok image =>
    match findMemType props o.memTypeBits with
    | none => (Except.error VkResult.ERROR_OUT_OF_HOST_MEMORY, [DriverCall.createImage image])
    | some _ =>
      match o.allocate with
      | Except.error e => (Except.error e, [DriverCall.createImage image])
      | Except.ok memory =>
        match o.bindImage with
        | Except.error e =>
          (Except.error e,
            [DriverCall.createImage image, DriverCall.allocateMemory memory])
        | Except.ok _ =>
          match o.mapMemory with
          | Except.error e =>
            (Except.error e,
              [DriverCall.createImage image, DriverCall.allocateMemory memory,
               DriverCall.bindImageMemory image memory])
          | Except.ok ptr =>
            (Except.ok ⟨image, memory, ptr, o.memSize, o.rowPitch⟩,
              [DriverCall.createImage image, DriverCall.allocateMemory memory,
               DriverCall.bindImageMemory image memory, DriverCall.mapMemory memory ptr])

/-- The `for i in 0..image_count` loop of create_host_visible_images: the
first error aborts the loop and is returned unchanged. -/
def create_images_loop (driver : DriverOracle) :
    Nat → Nat → Except VkResult (List HostVisibleImage) × List DriverCall
  | _, 0 => (Except.ok [], [])
  | i, n + 1 =>
    match create_one driver.memProps (driver.step i) with
    | (Except.error e, tr) => (Except.error e, tr)
    | (Except.ok img, tr) =>
      match create_images_loop driver (i + 1) n with
      | (Except.error e, tr2) => (Except.error e, tr ++ tr2)
      | (Except.ok rest, tr2) => (Except.ok (img :: rest), tr ++ tr2)

/-- create_host_visible_images (src/lib.rs lines 977-1084). -/
def create_host_visible_images (driver : DriverOracle) (image_count : Nat) :
    Except VkResult (List HostVisibleImage) × List DriverCall :=
  create_images_loop driver 0 image_count

/-- The image handle the driver returned for a step (0 if the create failed). -/
def imageHandleOf (o : ImageStepOutcome) : Handle :=
  match o.createImage with
  | Except.ok h => h
  | Except.error _ => 0

/-- The memory handle the driver returned for a step (0 if allocation failed). -/
def memHandleOf (o : ImageStepOutcome) : Handle :=
  match o.allocate with
  | Except.ok h => h
  | Except.error _ => 0

/-- The mapped pointer the driver returned for a step (0 if mapping failed). -/
def ptrOf (o : ImageStepOutcome) : Nat :=
  match o.mapMemory with
  | Except.ok p => p
  | Except.error _ => 0

/-- All driver calls of one image-creation step succeeded. -/
def StepSucceeds (props : List MemType) (o : ImageStepOutcome) : Prop :=
  (∃ h, o.createImage = Except.ok h) ∧
  (findMemType props o.memTypeBits).isSome = true ∧
  (∃ h, o.allocate = Except.ok h) ∧
  o.bindImage = Except.ok () ∧
  (∃ p, o.mapMemory = Except.ok p)

/-- vk::SurfaceCapabilitiesKHR (the fields the source fills in). -/
structure SurfaceCapabilities where
  min_image_count : Nat
  max_image_count : Nat
  current_extent : Extent2D
  min_image_extent : Extent2D
  max_image_extent : Extent2D
  max_image_array_layers : Nat
  supported_transforms : Nat
  current_transform : Nat
  supported_composite_alpha : Nat
  supported_usage_flags : Nat
  deriving DecidableEq, Repr

/-- vk::SurfaceFormatKHR as a pair of raw format / color-space values. -/
structure SurfaceFormat where
  format : Nat
  color_space : Nat
  deriving DecidableEq, Repr

/-- SurfaceData (src/lib.rs lines 86-90). -/
structure SurfaceData where
  capabilities : SurfaceCapabilities
  formats : List SurfaceFormat
  present_modes : List Nat
  deriving DecidableEq, Repr

/-- Default SurfaceData (src/lib.rs lines 92-143).  Raw flag values:
IDENTITY transform = 1, OPAQUE composite alpha = 1, usage = COLOR_ATTACHMENT
(16) | TRANSFER_DST (2) | TRANSFER_SRC (1) = 19; color space SRGB_NONLINEAR
= 0; present modes FIFO = 2, MAILBOX = 1, IMMEDIATE = 0. -/
def default_surface_data : SurfaceData where
  capabilities :=
    { min_image_count := 2
      max_image_count := 3
      current_extent := ⟨1920, 1080⟩
      min_image_extent := ⟨1, 1⟩
      max_image_extent := ⟨4096, 4096⟩
      max_image_array_layers := 1
      supported_transforms := 1
      current_transform := 1
      supported_composite_alpha := 1
      supported_usage_flags := 19 }
  formats :=
    [⟨FORMAT_B8G8R8A8_SRGB, 0⟩, ⟨FORMAT_R8G8B8A8_SRGB, 0⟩,
     ⟨FORMAT_B8G8R8A8_UNORM, 0⟩, ⟨FORMAT_R8G8B8A8_UNORM, 0⟩]
  present_modes := [2, 1, 0]

/-- DeviceData (src/lib.rs lines 68-83).  The cached next-layer function
pointers and the Mutex wrappers are not part of the sequential model; the
swapchain HashMap is an association list. -/
structure DeviceData where
  physical_device : Handle
  swapchains : List (Handle × SwapchainInfo)
  frame_counter : Nat
  command_pool : Option Handle
  graphics_queue : Option Handle
  graphics_queue_family : Option Nat
  deriving DecidableEq, Repr

/-- InstanceData (src/lib.rs lines 57-65).  destroy_instance models the
`destroy_instance: Option<PFN>` field, which vkCreateInstance always leaves
`None` (src/lib.rs line 372). -/
structure InstanceData where
  instance_h : Handle
  destroy_instance : Option Unit
  devices : List (Handle × DeviceData)
  surfaces : List (Handle × SurfaceData)
  config : LayerConfig
  deriving DecidableEq, Repr

/-- LAYER_DATA (src/lib.rs line 166): a single global Option slot, not a
handle-keyed map. -/
structure LayerState where
  registry : Option InstanceData
  deriving DecidableEq, Repr

/-- HashMap lookup on the association-list model (first match wins). -/
def lookupH {α : Type} : List (Nat × α) → Nat → Option α
  | [], _ => none
  | (k, v) :: rest, h => if k = h then some v else lookupH rest h

/-- HashMap in-place update of an existing key (first occurrence). -/
def updateH {α : Type} : List (Nat × α) → Nat → α → List (Nat × α)
  | [], _, _ => []
  | (k, v) :: rest, h, v' => if k = h then (k, v') :: rest else (k, v) :: updateH rest h v'

/-- HashMap removal of a key (first occurrence). -/
def removeH {α : Type} : List (Nat × α) → Nat → List (Nat × α)
  | [], _ => []
  | (k, v) :: rest, h => if k = h then rest else (k, v) :: removeH rest h

/-- vkGetPhysicalDeviceSurfaceCapabilitiesKHR (src/lib.rs lines 628-649).
Returns the capability record it would store through the out-pointer. -/
def vkGetPhysicalDeviceSurfaceCapabilitiesKHR (st : LayerState)
    (physical_device surface : Handle) : VkResult × Option SurfaceCapabilities :=
  match st.registry with
  | none => (VkResult.ERROR_INITIALIZATION_FAILED, none)
  | some instance_data =>
    match lookupH instance_data.surfaces surface with
    | none => (VkResult.ERROR_SURFACE_LOST_KHR, none)
    | some surface_data => (VkResult.SUCCESS, some surface_data.capabilities)

/-- vkGetPhysicalDeviceSurfaceFormatsKHR (src/lib.rs lines 652-683).  `probe`
is true when the output pointer is null (count query); `in_count` is the value
behind the count pointer.  On error the out-parameters are untouched (none). -/
def vkGetPhysicalDeviceSurfaceFormatsKHR (st : LayerState)
    (physical_device surface : Handle) (probe : Bool) (in_count : Nat) :
    VkResult × Option (Nat × List SurfaceFormat) :=
  match st.registry with
  | none => (VkResult.ERROR_INITIALIZATION_FAILED, none)
  | some instance_data =>
    match lookupH instance_data.surfaces surface with
    | none => (VkResult.ERROR_SURFACE_LOST_KHR, none)
    | some surface_data =>
      if probe then (VkResult.SUCCESS, some (surface_data.formats.length, []))
      else
        let count := Nat.min in_count surface_data.formats.length
        (VkResult.SUCCESS, some (count, surface_data.formats.take count))

/-- vkGetPhysicalDeviceSurfacePresentModesKHR (src/lib.rs lines 686-717). -/
def vkGetPhysicalDeviceSurfacePresentModesKHR (st : LayerState)
    (physical_device surface : Handle) (probe : Bool) (in_count : Nat) :
    VkResult × Option (Nat × List Nat) :=
  match st.registry with
  | none => (VkResult.ERROR_INITIALIZATION_FAILED, none)
  | some instance_data =>
    match lookupH instance_data.surfaces surface with
    | none => (VkResult.ERROR_SURFACE_LOST_KHR, none)
    | some surface_data =>
      if probe then (VkResult.SUCCESS, some (surface_data.present_modes.length, []))
      else
        let count := Nat.min in_count surface_data.present_modes.length
        (VkResult.SUCCESS, some (count, surface_data.present_modes.take count))

/-- vkGetPhysicalDeviceSurfaceSupportKHR (src/lib.rs lines 720-730): the
source never touches LAYER_DATA or the surface registry; it unconditionally
stores TRUE and returns SUCCESS. -/
def vkGetPhysicalDeviceSurfaceSupportKHR (physical_device queue_family surface : Handle) :
    VkResult × Bool :=
  (VkResult.SUCCESS, true)

/-- SwapchainCreateInfoKHR (the fields the source reads). -/
structure SwapchainCreateInfo where
  min_image_count : Nat
  image_format : Nat
  image_extent : Extent2D
  deriving DecidableEq, Repr

/-- vkCreateSwapchainKHR (src/lib.rs lines 733-805).  `new_handle` stands for
the value of generate_unique_handle(); the driver oracle answers the image
creation calls.  On image-creation failure the error is returned and nothing
is registered. -/
def vkCreateSwapchainKHR (driver : DriverOracle) (st : LayerState) (device : Handle)
    (create_info : SwapchainCreateInfo) (new_handle : Handle) :
    VkResult × LayerState × List DriverCall :=
  match st.registry with
  | none => (VkResult.ERROR_INITIALIZATION_FAILED, st, [])
  | some instance_data =>
    match lookupH instance_data.devices device with
    | none => (VkResult.ERROR_INITIALIZATION_FAILED, st, [])
    | some device_data =>
      let image_count := Nat.max create_info.min_image_count 2
      match create_host_visible_images driver image_count with
      | (Except.error e, tr) => (e, st, tr)
      | (Except.ok host_images, tr) =>
        let info : SwapchainInfo :=
          ⟨host_images, create_info.image_format, create_info.image_extent, image_count⟩
        let device_data' := { device_data with swapchains := (new_handle, info) :: device_data.swapchains }
        (VkResult.SUCCESS,
          ⟨some { instance_data with devices := updateH instance_data.devices device device_data' }⟩,
          tr)

/-- vkGetSwapchainImagesKHR (src/lib.rs lines 838-875).  `probe` is true when
the output array pointer is null; `in_count` is the value behind the count
pointer.  Returns the written count and the written image handles. -/
def vkGetSwapchainImagesKHR (st : LayerState) (device swapchain : Handle)
    (probe : Bool) (in_count : Nat) : VkResult × Option (Nat × List Handle) :=
  match st.registry with
  | none => (VkResult.ERROR_INITIALIZATION_FAILED, none)
  | some instance_data =>
    match lookupH instance_data.devices device with
    | none => (VkResult.ERROR_INITIALIZATION_FAILED, none)
    | some device_data =>
      match lookupH device_data.swapchains swapchain with
      | none => (VkResult.ERROR_INITIALIZATION_FAILED, none)
      | some swapchain_info =>
        if probe then (VkResult.SUCCESS, some (swapchain_info.images.length, []))
        else
          let count := Nat.min in_count swapchain_info.images.length
          (VkResult.SUCCESS,
            some (count, (swapchain_info.images.take count).map HostVisibleImage.image))

/-- vkAcquireNextImageKHR (src/lib.rs lines 878-911).  The timeout, semaphore
and fence arguments are accepted and ignored, exactly as in the source; the
third component is the list of driver calls issued (none: the state is only
read, nothing is signalled, nothing blocks). -/
def vkAcquireNextImageKHR (st : LayerState) (device swapchain : Handle)
    (timeout semaphore fence : Nat) :
    (VkResult × Option Nat) × LayerState × List DriverCall :=
  match st.registry with
  | none => ((VkResult.ERROR_INITIALIZATION_FAILED, none), st, [])
  | some instance_data =>
    match lookupH instance_data.devices device with
    | none => ((VkResult.ERROR_INITIALIZATION_FAILED, none), st, [])
    | some device_data =>
      match lookupH device_data.swapchains swapchain with
      | none => ((VkResult.ERROR_INITIALIZATION_FAILED, none), st, [])
      | some swapchain_info =>
        ((VkResult.SUCCESS, some (device_data.frame_counter % swapchain_info.image_count)),
          st, [])

/-- Outcomes of the external effects of the present-time capture pipeline:
whether the barrier's submit/wait sequence succeeds and whether the
filesystem write succeeds. -/
structure CaptureEnv where
  barrier_ok : Bool
  fs_ok : Bool
  deriving DecidableEq, Repr

/-- ensure_host_visibility_barrier (src/lib.rs lines 1115-1181): performs the
barrier only when both a command pool and a graphics queue exist, otherwise
logs a warning and reports Ok.  Returns whether the function returned Ok. -/
def ensure_host_visibility_barrier (env : CaptureEnv) (device_data : DeviceData) : Bool :=
  match device_data.command_pool, device_data.graphics_queue with
  | some _, some _ => env.barrier_ok
  | _, _ => true

/-- Zero-padded six-digit frame number, as the format string at
src/lib.rs line 1226 renders it. -/
def pad6 (n : Nat) : String :=
  String.mk (List.replicate (6 - (toString n).length) '0') ++ toString n

/-- The path composed at src/lib.rs line 1226. -/
def frame_filename (cfg : LayerConfig) (frame_num : Nat) : String :=
  cfg.output_dir ++ "/frame_" ++ pad6 frame_num ++ "." ++
    (match cfg.output_format with
     | OutputFormat.Ppm => "ppm"
     | OutputFormat.Png => "png")

/-- capture_host_visible_frame (src/lib.rs lines 1183-1265): index check,
host-visibility barrier, RGB decode, file write.  Returns the file written
(path and content), or none when any step fails; failures are only logged.
save_png_frame (lines 1344-1355) falls back to PPM with the extension
substituted. -/
def capture_host_visible_frame (env : CaptureEnv) (mem : Nat → Nat)
    (device_data : DeviceData) (swapchain_info : SwapchainInfo)
    (image_index frame_num : Nat) (cfg : LayerConfig) :
    Option (String × List Nat) :=
  match swapchain_info.images[image_index]? with
  | none => none
  | some host_image =>
    if ensure_host_visibility_barrier env device_data then
      match convert_host_image_to_rgb (fun o => mem (host_image.mapped_ptr + o))
          host_image.row_pitch swapchain_info.extent swapchain_info.format with
      | none => none
      | some pixels =>
        let filename := frame_filename cfg frame_num
        match cfg.output_format with
        | OutputFormat.Ppm =>
          if env.fs_ok then
            some (filename,
              (save_ppm_frame pixels swapchain_info.extent.width swapchain_info.extent.height).1)
          else none
        | OutputFormat.Png =>
          if env.fs_ok then
            some (filename.replace ".png" ".ppm",
              (save_ppm_frame pixels swapchain_info.extent.width swapchain_info.extent.height).1)
          else none
    else none

/-- The `for device_data in devices.values()` loop of vkQueuePresentKHR
(src/lib.rs lines 943-970) for one (swapchain, image_index) pair: the first
device owning the swapchain has its frame counter fetch-and-incremented; a
frequency or max-frames skip `continue`s to the remaining devices, a capture
`break`s. -/
def present_one (cfg : LayerConfig) (env : CaptureEnv) (mem : Nat → Nat)
    (swapchain image_index : Nat) :
    List (Handle × DeviceData) → List (Handle × DeviceData) × Option (String × List Nat)
  | [] => ([], none)
  | (dh, device_data) :: rest =>
    match lookupH device_data.swapchains swapchain with
    | none =>
      let r := present_one cfg env mem swapchain image_index rest
      ((dh, device_data) :: r.1, r.2)
    | some swapchain_info =>
      let frame_num := device_data.frame_counter
      let device_data' := { device_data with frame_counter := frame_num + 1 }
      if cfg.capture_frequency > 1 ∧ frame_num % cfg.capture_frequency ≠ 0 then
        let r := present_one cfg env mem swapchain image_index rest
        ((dh, device_data') :: r.1, r.2)
      else if cfg.max_frames > 0 ∧ frame_num ≥ cfg.max_frames then
        let r := present_one cfg env mem swapchain image_index rest
        ((dh, device_data') :: r.1, r.2)
      else
        ((dh, device_data') :: rest,
          capture_host_visible_frame env mem device_data swapchain_info image_index frame_num cfg)

/-- The outer loop of vkQueuePresentKHR over the present-info's
(swapchain, image_index) pairs; collects the files written. -/
def present_list (cfg : LayerConfig) (env : CaptureEnv) (mem : Nat → Nat) :
    List (Handle × DeviceData) → List (Nat × Nat) →
    List (Handle × DeviceData) × List (String × List Nat)
  | devices, [] => (devices, [])
  | devices, (swapchain, image_index) :: rest =>
    let r1 := present_one cfg env mem swapchain image_index devices
    let r2 := present_list cfg env mem r1.1 rest
    (r2.1, (match r1.2 with | some f => [f] | none => []) ++ r2.2)

/-- vkQueuePresentKHR (src/lib.rs lines 914-974): returns SUCCESS whether or
not an instance is registered; capture failures are logged, never propagated. -/
def vkQueuePresentKHR (env : CaptureEnv) (mem : Nat → Nat) (st : LayerState)
    (presents : List (Nat × Nat)) :
    VkResult × LayerState × List (String × List Nat) :=
  match st.registry with
  | none => (VkResult.SUCCESS, st, [])
  | some instance_data =>
    let r := present_list instance_data.config env mem instance_data.devices presents
    (VkResult.SUCCESS, ⟨some { instance_data with devices := r.1 }⟩, r.2)

/-- cleanup_host_visible_images (src/lib.rs lines 1109-1113): the body only
logs; it issues no driver call at all. -/
def cleanup_host_visible_images (images : List HostVisibleImage) : List DriverCall := []

/-- vkDestroySwapchainKHR (src/lib.rs lines 807-835): removes the swapchain
from the device's map and passes its images to cleanup_host_visible_images.
Returns the new state and the driver calls issued. -/
def vkDestroySwapchainKHR (st : LayerState) (device swapchain : Handle) :
    LayerState × List DriverCall :=
  match st.registry with
  | none => (st, [])
  | some instance_data =>
    match lookupH instance_data.devices device with
    | none => (st, [])
    | some device_data =>
      let device_data' := { device_data with swapchains := removeH device_data.swapchains swapchain }
      let calls :=
        match lookupH device_data.swapchains swapchain with
        | some swapchain_info => cleanup_host_visible_images swapchain_info.images
        | none => []
      (⟨some { instance_data with devices := updateH instance_data.devices device device_data' }⟩,
        calls)

/-- vkDestroyInstance (src/lib.rs lines 386-398): takes the global slot
(whatever instance handle is passed) and calls the next layer's
destroy_instance only if that pointer was recorded, which vkCreateInstance
never does. -/
def vkDestroyInstance (st : LayerState) (instance_h : Handle) :
    LayerState × List DriverCall :=
  match st.registry with
  | none => (st, [])
  | some instance_data =>
    match instance_data.destroy_instance with
    | some _ => (⟨none⟩, [DriverCall.nextDestroyInstance])
    | none => (⟨none⟩, [])

/-- One CreateInstance/DestroyInstance call as the application observes it:
`createOk h` is a create whose chain info was present and whose next-layer
create succeeded returning handle `h`; the two failure events cover the error
paths of vkCreateInstance; `destroy h` is a DestroyInstance call on `h`. -/
inductive InstanceEvent where
  | createOk (h : Handle)
  | createFailChain
  | createFailNext (e : VkResult)
  | destroy (h : Handle)
  deriving DecidableEq, Repr

/-- vkCreateInstance / vkDestroyInstance effect on LAYER_DATA
(src/lib.rs lines 322-398): a successful create overwrites the single global
slot with a fresh InstanceData (destroy_instance = None, empty maps); a failed
create leaves it untouched; destroy clears the slot unconditionally. -/
def instance_step (cfg : LayerConfig) (st : LayerState) : InstanceEvent → LayerState
  | InstanceEvent.createOk h => ⟨some ⟨h, none, [], [], cfg⟩⟩
  | InstanceEvent.createFailChain => st
  | InstanceEvent.createFailNext _ => st
  | InstanceEvent.destroy h => (vkDestroyInstance st h).1

/-- Run a sequence of create/destroy events against the (initially empty)
global slot. -/
def run_instance_events (cfg : LayerConfig) (events : List InstanceEvent) : LayerState :=
  events.foldl (instance_step cfg) ⟨none⟩

/-- An instance handle is present in the layer's registry. -/
def registryContains (st : LayerState) (h : Handle) : Bool :=
  match st.registry with
  | some instance_data => instance_data.instance_h = h
  | none => false

/-- The HostVisibleImage record built from one fully successful driver step. -/
def hvi_of_step (o : ImageStepOutcome) : HostVisibleImage :=
  ⟨imageHandleOf o, memHandleOf o, ptrOf o, o.memSize, o.rowPitch⟩

/-- A driver whose first image creation fully succeeds (image 100, memory 200,
mapping 300) and whose second image creation fails at vkAllocateMemory. -/
def c7_step (i : Nat) : ImageStepOutcome :=
  if i = 0 then
    ⟨Except.ok 100, 1, 64, Except.ok 200, Except.ok (), Except.ok 300, 16⟩
  else
    ⟨Except.ok 101, 1, 64, Except.error VkResult.ERROR_OUT_OF_DEVICE_MEMORY,
      Except.ok (), Except.ok 301, 16⟩

/-- Concrete driver oracle for the C7 scenario: one host-visible, host-coherent
memory type. -/
def c7_driver : DriverOracle := ⟨[⟨true, true⟩], c7_step⟩

/-- A driver for which every image-creation step succeeds, with distinct
nonzero handles per step. -/
def c4_driver : DriverOracle :=
  ⟨[⟨true, true⟩], fun i => ⟨Except.ok (100 + i), 1, 64, Except.ok (200 + i),
    Except.ok (), Except.ok (4096 + 64 * i), 16⟩⟩

/-- Concrete swapchain with two host-visible B8G8R8A8_UNORM images of extent
2x2 and row pitch 16. -/
def c5_swapchain_info : SwapchainInfo :=
  ⟨[⟨10, 20, 0, 64, 16⟩, ⟨11, 21, 64, 64, 16⟩], 44, ⟨2, 2⟩, 2⟩

/-- Concrete device owning swapchain handle 9, frame counter at 5. -/
def c5_device_data : DeviceData := ⟨3, [(9, c5_swapchain_info)], 5, none, none, none⟩

/-- Concrete layer state: instance 1 with device handle 7. -/
def c5_state : LayerState :=
  ⟨some ⟨1, none, [(7, c5_device_data)], [], ⟨"./captured_frames", OutputFormat.Ppm, 1, 0⟩⟩⟩

/-- Concrete device for the C1 witness: swapchain handle 9, counter 0, no
graphics queue or command pool. -/
def c1_device_data : DeviceData := ⟨3, [(9, c5_swapchain_info)], 0, none, none, none⟩

/-- Concrete instance for the C1 witness: capture frequency 2, unbounded
max frames. -/
def c1_instance_data : InstanceData :=
  ⟨1, none, [(7, c1_device_data)], [], ⟨"out", OutputFormat.Ppm, 2, 0⟩⟩

/-- Concrete layer state for the C1 witness. -/
def c1_state : LayerState := ⟨some c1_instance_data⟩

/-- Concrete state for the C8 scenario: instance 1 owns device 5 with a real
command pool 7 and graphics queue 8; the device owns swapchain 9 whose image
10 is backed by memory 20, persistently mapped at 100. -/
def c8_swapchain_info : SwapchainInfo := ⟨[⟨10, 20, 100, 64, 16⟩], 44, ⟨2, 2⟩, 2⟩

/-- Concrete device for the C8 scenario. -/
def c8_device_data : DeviceData := ⟨3, [(9, c8_swapchain_info)], 0, some 7, some 8, some 0⟩

/-- Concrete layer state for the C8 scenario. -/
def c8_state : LayerState :=
  ⟨some ⟨1, none, [(5, c8_device_data)], [], ⟨"./captured_frames", OutputFormat.Ppm, 1, 0⟩⟩⟩

/-- Concrete layer state for the C9 scenarios: instance 1 with one registered
surface 100; surface 999 is unregistered. -/
def c9_state : LayerState :=
  ⟨some ⟨1, none, [], [(100, default_surface_data)],
    ⟨"./captured_frames", OutputFormat.Ppm, 1, 0⟩⟩⟩

/-- Concrete config used when running the C10 instance-lifecycle events. -/
def c10_config : LayerConfig := ⟨"./captured_frames", OutputFormat.Ppm, 1, 0⟩

deriving instance DecidableEq for Except

-- Helper lemmas (shared; none of these is a claim theorem).

theorem lookupH_cons_self {α : Type} (k : Nat) (v : α) (rest : List (Nat × α)) :
    lookupH ((k, v) :: rest) k = some v := by
  simp [lookupH]

theorem lookupH_updateH_self {α : Type} (m : List (Nat × α)) (k : Nat) (v v' : α)
    (h : lookupH m k = some v) : lookupH (updateH m k v') k = some v' := by
  induction m with
  | nil => simp [lookupH] at h
  | cons p rest ih =>
    rcases p with ⟨k0, v0⟩
    by_cases hk : k0 = k
    · subst hk; simp [lookupH, updateH]
    · simp [lookupH, updateH, hk] at h ⊢
      exact ih h

/-- C3: save_ppm_frame emits exactly the ASCII header "P6\n<W> <H>\n255\n"
followed by the pixel bytes, and when the pixel buffer holds W*H RGB triplets
the written file's size is the header length plus 3*W*H. -/
theorem claim_C3_ppm_layout (pixels : List Nat) (width height : Nat)
    (hlen : pixels.length = 3 * width * height) :
    save_ppm_frame pixels width height =
      (strBytes (ppm_header width height) ++ pixels,
        (strBytes (ppm_header width height)).length + 3 * width * height) := by
  simp [save_ppm_frame, hlen]

/-- C3 witness: the theorem applied to a concrete 4x2 frame of 24 pixel bytes. -/
theorem claim_C3_ppm_layout_witness :
    save_ppm_frame (List.replicate 24 7) 4 2 =
      (strBytes (ppm_header 4 2) ++ List.replicate 24 7,
        (strBytes (ppm_header 4 2)).length + 3 * 4 * 2) :=
  claim_C3_ppm_layout (List.replicate 24 7) 4 2 (by decide)

/-- C6: vkQueuePresentKHR returns SUCCESS unconditionally, for every layer
state, every present list, and every outcome of the capture path (barrier
failure, filesystem failure, unsupported format are all covered by quantifying
over the environment and the state). -/
theorem claim_C6_present_always_success (env : CaptureEnv) (mem : Nat → Nat)
    (st : LayerState) (presents : List (Nat × Nat)) :
    (vkQueuePresentKHR env mem st presents).1 = VkResult.SUCCESS := by
  rcases st with ⟨reg⟩
  cases reg <;> rfl

/-- C5: vkAcquireNextImageKHR on a registered device and swapchain returns
SUCCESS with out_index = frame_counter mod N (N the number of images), leaves
the state untouched and issues no driver call at all -- in particular it does
not signal the supplied semaphore or fence. -/
theorem claim_C5_acquire_round_robin (st : LayerState) (instance_data : InstanceData)
    (device_data : DeviceData) (swapchain_info : SwapchainInfo)
    (device swapchain timeout semaphore fence : Nat)
    (hreg : st.registry = some instance_data)
    (hdev : lookupH instance_data.devices device = some device_data)
    (hsc : lookupH device_data.swapchains swapchain = some swapchain_info)
    (hcount : swapchain_info.images.length = swapchain_info.image_count) :
    vkAcquireNextImageKHR st device swapchain timeout semaphore fence =
      ((VkResult.SUCCESS, some (device_data.frame_counter % swapchain_info.images.length)),
        st, []) := by
  rcases st with ⟨reg⟩
  cases hreg
  simp [vkAcquireNextImageKHR, hdev, hsc, hcount]

/-- C5 witness: the theorem applied to the concrete state c5_state (device 7,
swapchain 9 with 2 images, frame counter 5). -/
theorem claim_C5_acquire_round_robin_witness :
    vkAcquireNextImageKHR c5_state 7 9 1000 42 43 =
      ((VkResult.SUCCESS, some (c5_device_data.frame_counter % c5_swapchain_info.images.length)),
        c5_state, []) :=
  claim_C5_acquire_round_robin c5_state _ c5_device_data c5_swapchain_info 7 9 1000 42 43
    rfl (by decide) (by decide) (by decide)

/-- C9 counterexample: the claim says a surface-support query on a surface
absent from the registry returns SURFACE_LOST_KHR, but
vkGetPhysicalDeviceSurfaceSupportKHR never consults the registry: at the
concrete unregistered surface 999 it returns SUCCESS (reporting TRUE), not
SURFACE_LOST_KHR. -/
theorem claim_C9_counterexample :
    vkGetPhysicalDeviceSurfaceSupportKHR 2 0 999 = (VkResult.SUCCESS, true) ∧
    VkResult.SUCCESS ≠ VkResult.ERROR_SURFACE_LOST_KHR := by
  exact ⟨rfl, by decide⟩

/-- C9 amended: with a registered instance, the capabilities, formats and
present-modes queries return SURFACE_LOST_KHR for a surface that is not in
the surface registry, while the support query returns SUCCESS reporting TRUE
for every surface, registered or not. -/
theorem claim_C9_amended_surface_errors (st : LayerState) (instance_data : InstanceData)
    (physical_device surface : Handle) (probe : Bool) (in_count : Nat)
    (hreg : st.registry = some instance_data)
    (hs : lookupH instance_data.surfaces surface = none) :
    (vkGetPhysicalDeviceSurfaceCapabilitiesKHR st physical_device surface).1 =
      VkResult.ERROR_SURFACE_LOST_KHR ∧
    (vkGetPhysicalDeviceSurfaceFormatsKHR st physical_device surface probe in_count).1 =
      VkResult.ERROR_SURFACE_LOST_KHR ∧
    (vkGetPhysicalDeviceSurfacePresentModesKHR st physical_device surface probe in_count).1 =
      VkResult.ERROR_SURFACE_LOST_KHR ∧
    ∀ pd qf s, vkGetPhysicalDeviceSurfaceSupportKHR pd qf s = (VkResult.SUCCESS, true) := by
  rcases st with ⟨reg⟩
  cases hreg
  refine ⟨?_, ?_, ?_, fun pd qf s => rfl⟩ <;>
    simp [vkGetPhysicalDeviceSurfaceCapabilitiesKHR, vkGetPhysicalDeviceSurfaceFormatsKHR,
      vkGetPhysicalDeviceSurfacePresentModesKHR, hs]

/-- C9 amended witness: the theorem applied to the concrete state c9_state and
the unregistered surface 999. -/
theorem claim_C9_amended_surface_errors_witness :
    (vkGetPhysicalDeviceSurfaceCapabilitiesKHR c9_state 2 999).1 =
      VkResult.ERROR_SURFACE_LOST_KHR ∧
    (vkGetPhysicalDeviceSurfaceFormatsKHR c9_state 2 999 true 0).1 =
      VkResult.ERROR_SURFACE_LOST_KHR ∧
    (vkGetPhysicalDeviceSurfacePresentModesKHR c9_state 2 999 true 0).1 =
      VkResult.ERROR_SURFACE_LOST_KHR ∧
    ∀ pd qf s, vkGetPhysicalDeviceSurfaceSupportKHR pd qf s = (VkResult.SUCCESS, true) :=
  claim_C9_amended_surface_errors c9_state _ 2 999 true 0 rfl (by decide)

/-- C10: evaluating the code at the failing input.  Two successful creates
(instances 1 then 2, neither ever destroyed) leave the single-slot registry
holding only instance 2: instance 1 was successfully created and never
destroyed, yet it is no longer present, so the claimed registry invariant
fails for sequences that create more than one instance.  Also, a destroy
naming a wrong handle (3) clears the slot, evicting instance 2. -/
theorem claim_C10_registry_single_slot :
    run_instance_events c10_config [InstanceEvent.createOk 1, InstanceEvent.createOk 2] =
      ⟨some ⟨2, none, [], [], c10_config⟩⟩ ∧
    registryContains
      (run_instance_events c10_config [InstanceEvent.createOk 1, InstanceEvent.createOk 2]) 1 =
      false ∧
    registryContains
      (run_instance_events c10_config [InstanceEvent.createOk 1, InstanceEvent.createOk 2]) 2 =
      true ∧
    registryContains
      (run_instance_events c10_config
        [InstanceEvent.createOk 2, InstanceEvent.destroy 3]) 2 = false := by
  refine ⟨rfl, by decide, by decide, by decide⟩

/-- C8: evaluating the code at the failing input.  Destroying instance 1 of
c8_state (which owns a device with command pool 7 and a swapchain whose image
memory 20 is mapped at 100) issues no driver call at all: the memory is never
unmapped or freed and the command pool is never destroyed.  Destroying the
swapchain likewise issues no driver call, because
cleanup_host_visible_images is a no-op. -/
theorem claim_C8_destroy_is_noop :
    vkDestroyInstance c8_state 1 = (⟨none⟩, []) ∧
    (vkDestroySwapchainKHR c8_state 5 9).2 = [] ∧
    cleanup_host_visible_images c8_swapchain_info.images = [] := by
  refine ⟨rfl, by decide, rfl⟩

theorem create_one_calls_not_cleanup (props : List MemType) (o : ImageStepOutcome) :
    ∀ c ∈ (create_one props o).2, is_cleanup_call c = false := by
  intro c hc
  unfold create_one at hc
  cases h1 : o.createImage with
  | error e => simp [h1] at hc
  | ok image =>
    rw [h1] at hc
    cases h2 : findMemType props o.memTypeBits with
    | none => rw [h2] at hc; simp at hc; subst hc; rfl
    | some j =>
      rw [h2] at hc
      cases h3 : o.allocate with
      | error e => rw [h3] at hc; simp at hc; subst hc; rfl
      | ok memory =>
        rw [h3] at hc
        cases h4 : o.bindImage with
        | error e => rw [h4] at hc; simp at hc; rcases hc with rfl | rfl <;> rfl
        | ok u =>
          rw [h4] at hc
          cases h5 : o.mapMemory with
          | error e => rw [h5] at hc; simp at hc; rcases hc with rfl | rfl | rfl <;> rfl
          | ok ptr => rw [h5] at hc; simp at hc; rcases hc with rfl | rfl | rfl | rfl <;> rfl

theorem create_images_loop_calls_not_cleanup (driver : DriverOracle) :
    ∀ (n i : Nat), ∀ c ∈ (create_images_loop driver i n).2, is_cleanup_call c = false := by
  intro n
  induction n with
  | zero => intro i c hc; simp [create_images_loop] at hc
  | succ m ih =>
    intro i c hc
    unfold create_images_loop at hc
    split at hc
    · rename_i e tr heq
      apply create_one_calls_not_cleanup driver.memProps (driver.step i)
      rw [heq]
      exact hc
    · rename_i img tr heq
      split at hc
      · rename_i e2 tr2 heq2
        rcases List.mem_append.mp hc with h | h
        · apply create_one_calls_not_cleanup driver.memProps (driver.step i)
          rw [heq]; exact h
        · apply ih (i + 1) c
          rw [heq2]; exact h
      · rename_i rest tr2 heq2
        rcases List.mem_append.mp hc with h | h
        · apply create_one_calls_not_cleanup driver.memProps (driver.step i)
          rw [heq]; exact h
        · apply ih (i + 1) c
          rw [heq2]; exact h

theorem create_images_loop_error (driver : DriverOracle) :
    ∀ (n i : Nat) (e : VkResult),
      (create_images_loop driver i n).1 = Except.error e →
      ∃ k, i ≤ k ∧ k < i + n ∧ (create_one driver.memProps (driver.step k)).1 = Except.error e := by
  intro n
  induction n with
  | zero => intro i e h; simp [create_images_loop] at h
  | succ m ih =>
    intro i e h
    unfold create_images_loop at h
    split at h
    · rename_i e2 tr heq
      simp at h
      refine ⟨i, Nat.le_refl i, by omega, ?_⟩
      rw [heq, h]
    · rename_i img tr heq
      split at h
      · rename_i e2 tr2 heq2
        simp at h
        rcases ih (i + 1) e (by rw [heq2, h]) with ⟨k, hk1, hk2, hk3⟩
        exact ⟨k, by omega, by omega, hk3⟩
      · simp at h

/-- C7 counterexample: at the concrete driver c7_driver (first image fully
created as image 100 / memory 200 / mapping 300, second image's memory
allocation failing), create_host_visible_images returns the driver's error
but rolls nothing back: the created images 100 and 101 are never destroyed,
memory 200 is never freed and never unmapped -- so the claim that the engine
leaves no images, memory allocations, or mappings behind is false. -/
theorem claim_C7_counterexample :
    (create_host_visible_images c7_driver 2).1 =
      Except.error VkResult.ERROR_OUT_OF_DEVICE_MEMORY ∧
    DriverCall.createImage 100 ∈ (create_host_visible_images c7_driver 2).2 ∧
    DriverCall.createImage 101 ∈ (create_host_visible_images c7_driver 2).2 ∧
    DriverCall.allocateMemory 200 ∈ (create_host_visible_images c7_driver 2).2 ∧
    DriverCall.mapMemory 200 300 ∈ (create_host_visible_images c7_driver 2).2 ∧
    DriverCall.destroyImage 100 ∉ (create_host_visible_images c7_driver 2).2 ∧
    DriverCall.destroyImage 101 ∉ (create_host_visible_images c7_driver 2).2 ∧
    DriverCall.freeMemory 200 ∉ (create_host_visible_images c7_driver 2).2 ∧
    DriverCall.unmapMemory 200 ∉ (create_host_visible_images c7_driver 2).2 := by
  decide

/-- C7 amended: if any step of host-visible image creation fails, the
driver's error code is returned as-is (the returned error is the failing
step's error), but no rollback happens: create_host_visible_images never
issues a destroy-image, free-memory or unmap-memory call, so images created
before the failure are left behind. -/
theorem claim_C7_amended_no_rollback (driver : DriverOracle) (image_count : Nat) :
    (∀ c ∈ (create_host_visible_images driver image_count).2, is_cleanup_call c = false) ∧
    (∀ e, (create_host_visible_images driver image_count).1 = Except.error e →
      ∃ k, k < image_count ∧
        (create_one driver.memProps (driver.step k)).1 = Except.error e) := by
  constructor
  · intro c hc
    exact create_images_loop_calls_not_cleanup driver image_count 0 c hc
  · intro e he
    rcases create_images_loop_error driver image_count 0 e he with ⟨k, _, hk2, hk3⟩
    exact ⟨k, by omega, hk3⟩

/-- C7 amended witness: the amended theorem applied to the concrete driver
c7_driver with image_count 2. -/
theorem claim_C7_amended_no_rollback_witness :
    (∀ c ∈ (create_host_visible_images c7_driver 2).2, is_cleanup_call c = false) ∧
    (∀ e, (create_host_visible_images c7_driver 2).1 = Except.error e →
      ∃ k, k < 2 ∧ (create_one c7_driver.memProps (c7_driver.step k)).1 = Except.error e) :=
  claim_C7_amended_no_rollback c7_driver 2

theorem flatMap_length_uniform {α β : Type} (f : α → List β) (L : Nat)
    (hL : ∀ a, (f a).length = L) : ∀ l : List α, (l.flatMap f).length = L * l.length := by
  intro l
  induction l with
  | nil => simp
  | cons a t ih =>
    rw [List.flatMap_cons, List.length_append, hL, ih, List.length_cons, Nat.mul_succ,
      Nat.add_comm]

theorem flatMap_getElem_uniform {α β : Type} (f : α → List β) (L : Nat)
    (hL : ∀ a, (f a).length = L) :
    ∀ (l : List α) (i k : Nat) (hi : i < l.length), k < L →
      (l.flatMap f)[L * i + k]? = (f l[i])[k]? := by
  intro l
  induction l with
  | nil => intro i k hi hk; exact absurd hi (Nat.not_lt_zero i)
  | cons a t ih =>
    intro i k hi hk
    cases i with
    | zero =>
      have h0 : L * 0 + k = k := by ring
      rw [h0, List.flatMap_cons, List.getElem?_append_left (by rw [hL]; exact hk)]
      simp
    | succ j =>
      have h1 : L * (j + 1) + k = (f a).length + (L * j + k) := by rw [hL]; ring
      rw [h1, List.flatMap_cons, List.getElem?_append_right (Nat.le_add_right _ _)]
      have h2 : (f a).length + (L * j + k) - (f a).length = L * j + k := by omega
      rw [h2]
      have hj : j < t.length := by simpa using hi
      rw [ih j k hj hk]
      simp

theorem rgb_grid_length (g : Nat → Nat → List Nat) (w h : Nat)
    (hg : ∀ y x, (g y x).length = 3) :
    ((List.range h).flatMap fun y => (List.range w).flatMap fun x => g y x).length =
      3 * w * h := by
  have hrow : ∀ y, ((List.range w).flatMap fun x => g y x).length = 3 * w := by
    intro y
    rw [flatMap_length_uniform _ 3 (hg y), List.length_range]
  rw [flatMap_length_uniform _ (3 * w) hrow, List.length_range]

theorem rgb_grid_getElem (g : Nat → Nat → List Nat) (w h : Nat)
    (hg : ∀ y x, (g y x).length = 3)
    (y x k : Nat) (hy : y < h) (hx : x < w) (hk : k < 3) :
    ((List.range h).flatMap fun y => (List.range w).flatMap fun x => g y x)[3 * (y * w + x) + k]? =
      (g y x)[k]? := by
  have hrow : ∀ y, ((List.range w).flatMap fun x => g y x).length = 3 * w := by
    intro y
    rw [flatMap_length_uniform _ 3 (hg y), List.length_range]
  have hidx : 3 * (y * w + x) + k = 3 * w * y + (3 * x + k) := by ring
  rw [hidx,
    flatMap_getElem_uniform _ (3 * w) hrow (List.range h) y (3 * x + k)
      (by simpa using hy) (by omega)]
  simp only [List.getElem_range]
  rw [flatMap_getElem_uniform (g y) 3 (hg y) (List.range w) x k (by simpa using hx) hk]
  simp

theorem rgb_grid_length3 (b0 b1 b2 : Nat → Nat → Nat) (w h : Nat) :
    ((List.range h).flatMap fun y =>
      (List.range w).flatMap fun x => [b0 y x, b1 y x, b2 y x]).length = 3 * w * h :=
  rgb_grid_length (fun y x => [b0 y x, b1 y x, b2 y x]) w h (fun y x => rfl)

theorem rgb_grid_getElem3 (b0 b1 b2 : Nat → Nat → Nat) (w h y x k : Nat)
    (hy : y < h) (hx : x < w) (hk : k < 3) :
    ((List.range h).flatMap fun y =>
      (List.range w).flatMap fun x => [b0 y x, b1 y x, b2 y x])[3 * (y * w + x) + k]? =
      ([b0 y x, b1 y x, b2 y x])[k]? :=
  rgb_grid_getElem (fun y x => [b0 y x, b1 y x, b2 y x]) w h (fun y x => rfl) y x k hy hx hk

theorem convert_some_of_supported (mem : Nat → Nat) (row_pitch : Nat) (extent : Extent2D)
    {format : Nat} (hfmt : SupportedFormat format) :
    ∃ l, convert_host_image_to_rgb mem row_pitch extent format = some l := by
  unfold SupportedFormat at hfmt
  unfold convert_host_image_to_rgb
  rcases hfmt with h | h | h | h | h | h <;> subst h <;>
    simp [FORMAT_B8G8R8A8_SRGB, FORMAT_B8G8R8A8_UNORM, FORMAT_R8G8B8A8_SRGB,
      FORMAT_R8G8B8A8_UNORM, FORMAT_R8G8B8_SRGB, FORMAT_R8G8B8_UNORM]

/-- C2: for every mapped image with extent (w,h), row pitch s, and a supported
format, the decoder returns a tightly packed RGB buffer of length 3*w*h in
which pixel (x,y) is read from the row base y*s at offset x*bpp, with
B8G8R8A8 formats emitting [byte2, byte1, byte0], R8G8B8A8 formats emitting
[byte0, byte1, byte2], and R8G8B8 formats copied as-is; every unsupported
format yields no output.  (The two bound hypotheses state that the u32 offset
products do not wrap.) -/
theorem claim_C2_decoder (mem : Nat → Nat) (row_pitch : Nat) (extent : Extent2D) (format : Nat)
    (hrow : ∀ y, y < extent.height → y * row_pitch < 4294967296)
    (hpix : ∀ x, x < extent.width → x * bpp format < 4294967296) :
    (SupportedFormat format →
      ∃ l, convert_host_image_to_rgb mem row_pitch extent format = some l ∧
        l.length = 3 * extent.width * extent.height ∧
        ∀ y, y < extent.height → ∀ x, x < extent.width → ∀ k : Fin 3,
          l[3 * (y * extent.width + x) + (k : Nat)]? =
            some (decodedByte mem format (y * row_pitch + x * bpp format) k)) ∧
    (¬ SupportedFormat format → convert_host_image_to_rgb mem row_pitch extent format = none) := by
  constructor
  · intro hsf
    rcases hsf with h | h | h | h | h | h <;> subst h
    · unfold convert_host_image_to_rgb
      rw [if_pos (Or.inl rfl)]
      refine ⟨_, rfl, rgb_grid_length3 _ _ _ _ _, ?_⟩
      intro y hy x hx k
      rw [rgb_grid_getElem3 _ _ _ extent.width extent.height y x (k : Nat) hy hx k.isLt]
      have hb : bpp FORMAT_B8G8R8A8_SRGB = 4 := by decide
      have e1 : u32Mod (y * row_pitch) = y * row_pitch := Nat.mod_eq_of_lt (hrow y hy)
      have e2 : u32Mod (x * 4) = x * 4 := by
        have hx4 := hpix x hx
        rw [hb] at hx4
        exact Nat.mod_eq_of_lt hx4
      rw [hb]
      fin_cases k <;>
        simp [e1, e2, decodedByte, FORMAT_B8G8R8A8_SRGB, FORMAT_B8G8R8A8_UNORM]
    · unfold convert_host_image_to_rgb
      rw [if_pos (Or.inr rfl)]
      refine ⟨_, rfl, rgb_grid_length3 _ _ _ _ _, ?_⟩
      intro y hy x hx k
      rw [rgb_grid_getElem3 _ _ _ extent.width extent.height y x (k : Nat) hy hx k.isLt]
      have hb : bpp FORMAT_B8G8R8A8_UNORM = 4 := by decide
      have e1 : u32Mod (y * row_pitch) = y * row_pitch := Nat.mod_eq_of_lt (hrow y hy)
      have e2 : u32Mod (x * 4) = x * 4 := by
        have hx4 := hpix x hx
        rw [hb] at hx4
        exact Nat.mod_eq_of_lt hx4
      rw [hb]
      fin_cases k <;>
        simp [e1, e2, decodedByte, FORMAT_B8G8R8A8_SRGB, FORMAT_B8G8R8A8_UNORM]
    · unfold convert_host_image_to_rgb
      rw [if_neg (by decide), if_pos (Or.inl rfl)]
      refine ⟨_, rfl, rgb_grid_length3 _ _ _ _ _, ?_⟩
      intro y hy x hx k
      rw [rgb_grid_getElem3 _ _ _ extent.width extent.height y x (k : Nat) hy hx k.isLt]
      have hb : bpp FORMAT_R8G8B8A8_SRGB = 4 := by decide
      have e1 : u32Mod (y * row_pitch) = y * row_pitch := Nat.mod_eq_of_lt (hrow y hy)
      have e2 : u32Mod (x * 4) = x * 4 := by
        have hx4 := hpix x hx
        rw [hb] at hx4
        exact Nat.mod_eq_of_lt hx4
      rw [hb]
      fin_cases k <;>
        simp [e1, e2, decodedByte, FORMAT_B8G8R8A8_SRGB, FORMAT_B8G8R8A8_UNORM,
          FORMAT_R8G8B8A8_SRGB]
    · unfold convert_host_image_to_rgb
      rw [if_neg (by decide), if_pos (Or.inr rfl)]
      refine ⟨_, rfl, rgb_grid_length3 _ _ _ _ _, ?_⟩
      intro y hy x hx k
      rw [rgb_grid_getElem3 _ _ _ extent.width extent.height y x (k : Nat) hy hx k.isLt]
      have hb : bpp FORMAT_R8G8B8A8_UNORM = 4 := by decide
      have e1 : u32Mod (y * row_pitch) = y * row_pitch := Nat.mod_eq_of_lt (hrow y hy)
      have e2 : u32Mod (x * 4) = x * 4 := by
        have hx4 := hpix x hx
        rw [hb] at hx4
        exact Nat.mod_eq_of_lt hx4
      rw [hb]
      fin_cases k <;>
        simp [e1, e2, decodedByte, FORMAT_B8G8R8A8_SRGB, FORMAT_B8G8R8A8_UNORM,
          FORMAT_R8G8B8A8_UNORM]
    · unfold convert_host_image_to_rgb
      rw [if_neg (by decide), if_neg (by decide), if_pos (Or.inl rfl)]
      refine ⟨_, rfl, rgb_grid_length3 _ _ _ _ _, ?_⟩
      intro y hy x hx k
      rw [rgb_grid_getElem3 _ _ _ extent.width extent.height y x (k : Nat) hy hx k.isLt]
      have hb : bpp FORMAT_R8G8B8_SRGB = 3 := by decide
      have e1 : u32Mod (y * row_pitch) = y * row_pitch := Nat.mod_eq_of_lt (hrow y hy)
      have e2 : u32Mod (x * 3) = x * 3 := by
        have hx3 := hpix x hx
        rw [hb] at hx3
        exact Nat.mod_eq_of_lt hx3
      rw [hb]
      fin_cases k <;>
        simp [e1, e2, decodedByte, FORMAT_B8G8R8A8_SRGB, FORMAT_B8G8R8A8_UNORM,
          FORMAT_R8G8B8_SRGB]
    · unfold convert_host_image_to_rgb
      rw [if_neg (by decide), if_neg (by decide), if_pos (Or.inr rfl)]
      refine ⟨_, rfl, rgb_grid_length3 _ _ _ _ _, ?_⟩
      intro y hy x hx k
      rw [rgb_grid_getElem3 _ _ _ extent.width extent.height y x (k : Nat) hy hx k.isLt]
      have hb : bpp FORMAT_R8G8B8_UNORM = 3 := by decide
      have e1 : u32Mod (y * row_pitch) = y * row_pitch := Nat.mod_eq_of_lt (hrow y hy)
      have e2 : u32Mod (x * 3) = x * 3 := by
        have hx3 := hpix x hx
        rw [hb] at hx3
        exact Nat.mod_eq_of_lt hx3
      rw [hb]
      fin_cases k <;>
        simp [e1, e2, decodedByte, FORMAT_B8G8R8A8_SRGB, FORMAT_B8G8R8A8_UNORM,
          FORMAT_R8G8B8_UNORM]
  · intro hns
    unfold convert_host_image_to_rgb
    have h1 : ¬(format = FORMAT_B8G8R8A8_SRGB ∨ format = FORMAT_B8G8R8A8_UNORM) := by
      intro hor
      exact hns (by unfold SupportedFormat; tauto)
    have h2 : ¬(format = FORMAT_R8G8B8A8_SRGB ∨ format = FORMAT_R8G8B8A8_UNORM) := by
      intro hor
      exact hns (by unfold SupportedFormat; tauto)
    have h3 : ¬(format = FORMAT_R8G8B8_SRGB ∨ format = FORMAT_R8G8B8_UNORM) := by
      intro hor
      exact hns (by unfold SupportedFormat; tauto)
    rw [if_neg h1, if_neg h2, if_neg h3]

/-- C2 witness: the theorem applied at mem = identity, row pitch 16, extent
2x1 and format B8G8R8A8_UNORM (raw value 44). -/
theorem claim_C2_decoder_witness :
    (SupportedFormat 44 →
      ∃ l, convert_host_image_to_rgb (fun o => o) 16 ⟨2, 1⟩ 44 = some l ∧
        l.length = 3 * (⟨2, 1⟩ : Extent2D).width * (⟨2, 1⟩ : Extent2D).height ∧
        ∀ y, y < (⟨2, 1⟩ : Extent2D).height → ∀ x, x < (⟨2, 1⟩ : Extent2D).width → ∀ k : Fin 3,
          l[3 * (y * (⟨2, 1⟩ : Extent2D).width + x) + (k : Nat)]? =
            some (decodedByte (fun o => o) 44 (y * 16 + x * bpp 44) k)) ∧
    (¬ SupportedFormat 44 → convert_host_image_to_rgb (fun o => o) 16 ⟨2, 1⟩ 44 = none) :=
  claim_C2_decoder (fun o => o) 16 ⟨2, 1⟩ 44 (by decide) (by decide)

theorem create_one_ok (props : List MemType) (o : ImageStepOutcome)
    (hs : StepSucceeds props o) :
    create_one props o =
      (Except.ok (hvi_of_step o),
        [DriverCall.createImage (imageHandleOf o), DriverCall.allocateMemory (memHandleOf o),
         DriverCall.bindImageMemory (imageHandleOf o) (memHandleOf o),
         DriverCall.mapMemory (memHandleOf o) (ptrOf o)]) := by
  obtain ⟨⟨hi, hci⟩, hfind, ⟨hm, hal⟩, hb, ⟨hp, hmp⟩⟩ := hs
  rcases hfm : findMemType props o.memTypeBits with _ | j
  · rw [hfm] at hfind
    simp at hfind
  · simp [create_one, hvi_of_step, imageHandleOf, memHandleOf, ptrOf, hci, hfm, hal, hb, hmp]

theorem create_images_loop_ok (driver : DriverOracle) :
    ∀ (n i : Nat),
      (∀ k, k < n → StepSucceeds driver.memProps (driver.step (i + k))) →
      (create_images_loop driver i n).1 =
        Except.ok ((List.range n).map fun j => hvi_of_step (driver.step (i + j))) := by
  intro n
  induction n with
  | zero => intro i h; rfl
  | succ m ih =>
    intro i h
    have h0 : StepSucceeds driver.memProps (driver.step i) := by
      have := h 0 (Nat.succ_pos m)
      simpa using this
    have hrec := ih (i + 1) (fun k hk => by
      have := h (k + 1) (by omega)
      have he : i + (k + 1) = i + 1 + k := by omega
      rw [he] at this
      exact this)
    unfold create_images_loop
    rw [create_one_ok driver.memProps (driver.step i) h0]
    rcases heq : create_images_loop driver (i + 1) m with ⟨res, tr2⟩
    rw [heq] at hrec
    simp only at hrec
    subst hrec
    simp only []
    rw [List.range_succ_eq_map]
    simp only [List.map_cons, List.map_map, Function.comp, Except.ok.injEq, List.cons.injEq]
    constructor
    · rw [Nat.add_zero]
    · apply List.map_congr_left
      intro a ha
      have he2 : i + 1 + a = i + Nat.succ a := by omega
      rw [he2]
      rfl

/-- C4: vkCreateSwapchainKHR with requested min_image_count m creates
N = max(m, 2) host-visible images (given a driver whose image-creation calls
succeed with distinct non-null handles -- distinctness and non-nullness of the
handles the driver returns are the driver's side of the Vulkan contract); the
subsequent vkGetSwapchainImagesKHR count-probe returns max(m, 2), and its
fetch phase returns that same number of distinct, non-null image handles. -/
theorem claim_C4_swapchain_image_count (driver : DriverOracle) (st : LayerState)
    (instance_data : InstanceData) (device_data : DeviceData)
    (device new_handle : Handle) (create_info : SwapchainCreateInfo)
    (hreg : st.registry = some instance_data)
    (hdev : lookupH instance_data.devices device = some device_data)
    (hok : ∀ k, k < Nat.max create_info.min_image_count 2 →
      StepSucceeds driver.memProps (driver.step k))
    (hnn : ∀ k, k < Nat.max create_info.min_image_count 2 →
      imageHandleOf (driver.step k) ≠ 0)
    (hinj : ∀ k1, k1 < Nat.max create_info.min_image_count 2 →
      ∀ k2, k2 < Nat.max create_info.min_image_count 2 → k1 ≠ k2 →
        imageHandleOf (driver.step k1) ≠ imageHandleOf (driver.step k2)) :
    (vkCreateSwapchainKHR driver st device create_info new_handle).1 = VkResult.SUCCESS ∧
    vkGetSwapchainImagesKHR (vkCreateSwapchainKHR driver st device create_info new_handle).2.1
        device new_handle true 0 =
      (VkResult.SUCCESS, some (Nat.max create_info.min_image_count 2, [])) ∧
    ∃ handles,
      vkGetSwapchainImagesKHR (vkCreateSwapchainKHR driver st device create_info new_handle).2.1
          device new_handle false (Nat.max create_info.min_image_count 2) =
        (VkResult.SUCCESS, some (Nat.max create_info.min_image_count 2, handles)) ∧
      handles.length = Nat.max create_info.min_image_count 2 ∧
      handles.Nodup ∧ ∀ hnd ∈ handles, hnd ≠ 0 := by
  rcases st with ⟨reg⟩
  cases hreg
  have hloop := create_images_loop_ok driver (Nat.max create_info.min_image_count 2) 0
    (fun k hk => by simpa using hok k hk)
  have hres1 : (create_host_visible_images driver (Nat.max create_info.min_image_count 2)).1 =
      Except.ok ((List.range (Nat.max create_info.min_image_count 2)).map
        fun j => hvi_of_step (driver.step j)) := by
    unfold create_host_visible_images
    rw [hloop]
    simp only [Nat.zero_add]
  rcases hchvi : create_host_visible_images driver (Nat.max create_info.min_image_count 2)
    with ⟨res, tr⟩
  rw [hchvi] at hres1
  simp only at hres1
  subst hres1
  have hcreate : vkCreateSwapchainKHR driver ⟨some instance_data⟩ device create_info new_handle =
      (VkResult.SUCCESS,
        ⟨some { instance_data with
          devices := updateH instance_data.devices device
            { device_data with
              swapchains := (new_handle,
                ⟨(List.range (Nat.max create_info.min_image_count 2)).map
                    fun j => hvi_of_step (driver.step j),
                  create_info.image_format, create_info.image_extent,
                  Nat.max create_info.min_image_count 2⟩) :: device_data.swapchains } }⟩,
        tr) := by
    simp only [vkCreateSwapchainKHR, hdev, hchvi]
  have hlen : ((List.range (Nat.max create_info.min_image_count 2)).map
      fun j => hvi_of_step (driver.step j)).length = Nat.max create_info.min_image_count 2 := by
    simp
  have hdev' := lookupH_updateH_self instance_data.devices device device_data
    { device_data with
      swapchains := (new_handle,
        ⟨(List.range (Nat.max create_info.min_image_count 2)).map
            fun j => hvi_of_step (driver.step j),
          create_info.image_format, create_info.image_extent,
          Nat.max create_info.min_image_count 2⟩) :: device_data.swapchains } hdev
  refine ⟨by rw [hcreate], ?_, ?_⟩
  · rw [hcreate]
    simp only [vkGetSwapchainImagesKHR, hdev', lookupH_cons_self]
    simp [hlen]
  · refine ⟨(List.range (Nat.max create_info.min_image_count 2)).map
      fun j => imageHandleOf (driver.step j), ?_, ?_, ?_, ?_⟩
    · rw [hcreate]
      simp only [vkGetSwapchainImagesKHR, hdev', lookupH_cons_self]
      have htake : ∀ hi : List HostVisibleImage, hi.length = Nat.max create_info.min_image_count 2 →
          hi.take (Nat.max create_info.min_image_count 2) = hi := by
        intro hi hhi
        rw [← hhi, List.take_length]
      simp [hlen, htake _ hlen, List.map_map, Function.comp, hvi_of_step]
      rw [List.take_of_length_le (by simp)]
      apply List.map_congr_left
      intro a ha
      rfl
    · simp
    · apply List.Nodup.map_on ?_ (List.nodup_range _)
      intro a ha b hb hfe
      by_contra hne
      exact hinj a (List.mem_range.mp ha) b (List.mem_range.mp hb) hne hfe
    · intro hnd hmem
      rcases List.mem_map.mp hmem with ⟨j, hj, rfl⟩
      exact hnn j (List.mem_range.mp hj)

/-- C4 witness: the theorem applied to c4_driver and c5_state with requested
min_image_count 1 (so N = max(1,2) = 2), format B8G8R8A8_UNORM, extent 2x2,
fresh swapchain handle 4097. -/
theorem claim_C4_swapchain_image_count_witness :
    (vkCreateSwapchainKHR c4_driver c5_state 7 ⟨1, 44, ⟨2, 2⟩⟩ 4097).1 = VkResult.SUCCESS ∧
    vkGetSwapchainImagesKHR (vkCreateSwapchainKHR c4_driver c5_state 7 ⟨1, 44, ⟨2, 2⟩⟩ 4097).2.1
        7 4097 true 0 = (VkResult.SUCCESS, some (Nat.max 1 2, [])) ∧
    ∃ handles,
      vkGetSwapchainImagesKHR (vkCreateSwapchainKHR c4_driver c5_state 7 ⟨1, 44, ⟨2, 2⟩⟩ 4097).2.1
          7 4097 false (Nat.max 1 2) = (VkResult.SUCCESS, some (Nat.max 1 2, handles)) ∧
      handles.length = Nat.max 1 2 ∧ handles.Nodup ∧ ∀ hnd ∈ handles, hnd ≠ 0 :=
  claim_C4_swapchain_image_count c4_driver c5_state _ c5_device_data 7 4097 ⟨1, 44, ⟨2, 2⟩⟩
    rfl (by decide)
    (fun k hk => ⟨⟨100 + k, rfl⟩,
      by show (findMemType c4_driver.memProps 1).isSome = true; decide,
      ⟨200 + k, rfl⟩, rfl, ⟨4096 + 64 * k, rfl⟩⟩)
    (fun k hk => by
      show (100 + k : Nat) ≠ 0
      omega)
    (fun k1 hk1 k2 hk2 hne => by
      show (100 + k1 : Nat) ≠ 100 + k2
      omega)

theorem present_one_not_found (cfg : LayerConfig) (env : CaptureEnv) (mem : Nat → Nat)
    (swapchain image_index : Nat) :
    ∀ devices : List (Handle × DeviceData),
      (∀ p ∈ devices, lookupH p.2.swapchains swapchain = none) →
      present_one cfg env mem swapchain image_index devices = (devices, none) := by
  intro devices h
  induction devices with
  | nil => rfl
  | cons p t ih =>
    rcases p with ⟨dh, dd⟩
    have h1 : lookupH dd.swapchains swapchain = none := h (dh, dd) (by simp)
    have ht := ih (fun q hq => h q (List.mem_cons_of_mem _ hq))
    simp [present_one, h1, ht]

theorem present_one_append (cfg : LayerConfig) (env : CaptureEnv) (mem : Nat → Nat)
    (swapchain image_index : Nat) (pre devices : List (Handle × DeviceData))
    (hpre : ∀ p ∈ pre, lookupH p.2.swapchains swapchain = none) :
    present_one cfg env mem swapchain image_index (pre ++ devices) =
      (pre ++ (present_one cfg env mem swapchain image_index devices).1,
        (present_one cfg env mem swapchain image_index devices).2) := by
  induction pre with
  | nil => simp
  | cons p t ih =>
    rcases p with ⟨dh, dd⟩
    have h1 : lookupH dd.swapchains swapchain = none := hpre (dh, dd) (by simp)
    have ht := ih (fun q hq => hpre q (List.mem_cons_of_mem _ hq))
    simp [present_one, h1, ht]

theorem present_one_owner (cfg : LayerConfig) (env : CaptureEnv) (mem : Nat → Nat)
    (swapchain image_index : Nat) (pre post : List (Handle × DeviceData))
    (dh : Handle) (device_data : DeviceData) (swapchain_info : SwapchainInfo)
    (hpre : ∀ p ∈ pre, lookupH p.2.swapchains swapchain = none)
    (hpost : ∀ p ∈ post, lookupH p.2.swapchains swapchain = none)
    (hsc : lookupH device_data.swapchains swapchain = some swapchain_info) :
    present_one cfg env mem swapchain image_index (pre ++ (dh, device_data) :: post) =
      (pre ++ (dh, { device_data with frame_counter := device_data.frame_counter + 1 }) :: post,
        if (cfg.capture_frequency > 1 ∧ device_data.frame_counter % cfg.capture_frequency ≠ 0) ∨
            (cfg.max_frames > 0 ∧ device_data.frame_counter ≥ cfg.max_frames) then none
        else capture_host_visible_frame env mem device_data swapchain_info image_index
          device_data.frame_counter cfg) := by
  rw [present_one_append cfg env mem swapchain image_index pre _ hpre]
  have hpost' := present_one_not_found cfg env mem swapchain image_index post hpost
  by_cases h1 : cfg.capture_frequency > 1 ∧ device_data.frame_counter % cfg.capture_frequency ≠ 0
  · simp [present_one, hsc, h1, hpost']
  · by_cases h2 : cfg.max_frames > 0 ∧ device_data.frame_counter ≥ cfg.max_frames
    · simp [present_one, hsc, h1, h2, hpost']
    · simp [present_one, hsc, h1, h2, hpost']

theorem capture_frame_some (env : CaptureEnv) (mem : Nat → Nat)
    (device_data : DeviceData) (swapchain_info : SwapchainInfo)
    (image_index frame_num : Nat) (cfg : LayerConfig)
    (hidx : image_index < swapchain_info.images.length)
    (hfmt : SupportedFormat swapchain_info.format)
    (hbar : env.barrier_ok = true) (hfs : env.fs_ok = true) :
    ∃ f, capture_host_visible_frame env mem device_data swapchain_info image_index frame_num cfg =
      some f := by
  have himg : swapchain_info.images[image_index]? = some (swapchain_info.images[image_index]) :=
    List.getElem?_eq_getElem hidx
  have hbarrier : ensure_host_visibility_barrier env device_data = true := by
    unfold ensure_host_visibility_barrier
    cases device_data.command_pool <;> cases device_data.graphics_queue <;> simp [hbar]
  rcases convert_some_of_supported
      (fun o => mem ((swapchain_info.images[image_index]).mapped_ptr + o))
      (swapchain_info.images[image_index]).row_pitch swapchain_info.extent hfmt with ⟨l, hconv⟩
  unfold capture_host_visible_frame
  rw [himg]
  cases hof : cfg.output_format <;> simp [hbarrier, hconv, hof, hfs]

/-- C1: on QueuePresentKHR naming a registered swapchain (owned by exactly one
device), the owning device's frame counter is fetch-and-incremented, yielding
frame number n; with configured frequency F >= 1 and max_frames = 0 a frame
file is written iff n mod F = 0, and with max_frames = M > 0 no file is
written for any n >= M.  The happy-path hypotheses (valid image index,
supported format, barrier and filesystem succeed) isolate the filter itself. -/
theorem claim_C1_present_capture_filter (env : CaptureEnv) (mem : Nat → Nat)
    (st : LayerState) (instance_data : InstanceData)
    (pre post : List (Handle × DeviceData)) (dh : Handle) (device_data : DeviceData)
    (swapchain image_index : Nat) (swapchain_info : SwapchainInfo)
    (hreg : st.registry = some instance_data)
    (hdevs : instance_data.devices = pre ++ (dh, device_data) :: post)
    (hpre : ∀ p ∈ pre, lookupH p.2.swapchains swapchain = none)
    (hpost : ∀ p ∈ post, lookupH p.2.swapchains swapchain = none)
    (hsc : lookupH device_data.swapchains swapchain = some swapchain_info)
    (hfreq : 1 ≤ instance_data.config.capture_frequency)
    (hidx : image_index < swapchain_info.images.length)
    (hfmt : SupportedFormat swapchain_info.format)
    (hbar : env.barrier_ok = true) (hfs : env.fs_ok = true) :
    (vkQueuePresentKHR env mem st [(swapchain, image_index)]).2.1 =
      ⟨some { instance_data with
        devices := pre ++ (dh,
          { device_data with frame_counter := device_data.frame_counter + 1 }) :: post }⟩ ∧
    (instance_data.config.max_frames = 0 →
      ((vkQueuePresentKHR env mem st [(swapchain, image_index)]).2.2 ≠ [] ↔
        device_data.frame_counter % instance_data.config.capture_frequency = 0)) ∧
    (0 < instance_data.config.max_frames →
      instance_data.config.max_frames ≤ device_data.frame_counter →
      (vkQueuePresentKHR env mem st [(swapchain, image_index)]).2.2 = []) := by
  rcases st with ⟨reg⟩
  cases hreg
  have howner := present_one_owner instance_data.config env mem swapchain image_index
    pre post dh device_data swapchain_info hpre hpost hsc
  by_cases hcond : (instance_data.config.capture_frequency > 1 ∧
      device_data.frame_counter % instance_data.config.capture_frequency ≠ 0) ∨
      (instance_data.config.max_frames > 0 ∧
        device_data.frame_counter ≥ instance_data.config.max_frames)
  · have hfiles : vkQueuePresentKHR env mem ⟨some instance_data⟩ [(swapchain, image_index)] =
        (VkResult.SUCCESS,
          ⟨some { instance_data with devices := pre ++ (dh,
            { device_data with frame_counter := device_data.frame_counter + 1 }) :: post }⟩,
          []) := by
      simp only [vkQueuePresentKHR, present_list, hdevs, howner, if_pos hcond]
      rfl
    refine ⟨by rw [hfiles], ?_, ?_⟩
    · intro hM0
      rw [hfiles]
      simp only [ne_eq, not_true_eq_false, false_iff]
      intro hmod
      rcases hcond with ⟨hf1, hf2⟩ | ⟨hm1, hm2⟩
      · exact hf2 hmod
      · omega
    · intro _ _
      rw [hfiles]
  · have hmod : device_data.frame_counter % instance_data.config.capture_frequency = 0 := by
      rcases not_or.mp hcond with ⟨hc1, hc2⟩
      by_cases hF : instance_data.config.capture_frequency > 1
      · by_cases hm : device_data.frame_counter % instance_data.config.capture_frequency = 0
        · exact hm
        · exact absurd ⟨hF, hm⟩ hc1
      · have hone : instance_data.config.capture_frequency = 1 := by omega
        rw [hone, Nat.mod_one]
    rcases capture_frame_some env mem device_data swapchain_info image_index
      device_data.frame_counter instance_data.config hidx hfmt hbar hfs with ⟨f, hcap⟩
    have hfiles : vkQueuePresentKHR env mem ⟨some instance_data⟩ [(swapchain, image_index)] =
        (VkResult.SUCCESS,
          ⟨some { instance_data with devices := pre ++ (dh,
            { device_data with frame_counter := device_data.frame_counter + 1 }) :: post }⟩,
          [f]) := by
      simp only [vkQueuePresentKHR, present_list, hdevs, howner, if_neg hcond, hcap]
      rfl
    refine ⟨by rw [hfiles], ?_, ?_⟩
    · intro hM0
      rw [hfiles]
      simp [hmod]
    · intro hM1 hM2
      rcases not_or.mp hcond with ⟨hc1, hc2⟩
      exact absurd ⟨hM1, hM2⟩ hc2

/-- C1 witness: the theorem applied to c1_state (frequency 2, max_frames 0,
frame counter 0, swapchain 9 with supported format 44 and two images),
presenting image index 0 under a succeeding barrier and filesystem. -/
theorem claim_C1_present_capture_filter_witness :
    (vkQueuePresentKHR ⟨true, true⟩ (fun o => 0) c1_state [(9, 0)]).2.1 =
      ⟨some { c1_instance_data with
        devices := [] ++ (7,
          { c1_device_data with frame_counter := c1_device_data.frame_counter + 1 }) :: [] }⟩ ∧
    (c1_instance_data.config.max_frames = 0 →
      ((vkQueuePresentKHR ⟨true, true⟩ (fun o => 0) c1_state [(9, 0)]).2.2 ≠ [] ↔
        c1_device_data.frame_counter % c1_instance_data.config.capture_frequency = 0)) ∧
    (0 < c1_instance_data.config.max_frames →
      c1_instance_data.config.max_frames ≤ c1_device_data.frame_counter →
      (vkQueuePresentKHR ⟨true, true⟩ (fun o => 0) c1_state [(9, 0)]).2.2 = []) :=
  claim_C1_present_capture_filter ⟨true, true⟩ (fun o => 0) c1_state c1_instance_data
    [] [] 7 c1_device_data 9 0 c5_swapchain_info rfl rfl (by simp) (by simp)
    (by decide) (by decide) (by decide) (by decide) rfl rfl
